import Mathlib

/-!
Shallow embedding of the GPS/IP location-assistant app:
the IP-info provider cascade (`services/ipService`), the timeout-bounded
fetcher (`fetchWithTimeout`), and the orchestration logic of `App.tsx`
(load/refresh, geolocation callbacks, coordinate-guarded address
resolution via the grounding API, and the mounted-liveness guard).

JavaScript runtime values that the TypeScript types erase are modelled
explicitly: a possibly-undefined string field is `Option String`
(`none` = `undefined`), and the `||` operator's string falsiness
(empty string is falsy) is `jsOr` / `jsOrD`.
-/

namespace GpsIp

/-- JS `x || y` on possibly-undefined strings: `undefined` and `""` are falsy. -/
def jsOr : Option String → Option String → Option String
  | none, y => y
  | some s, y => if s = "" then y else some s

/-- JS `x || d` with a definite string default. -/
def jsOrD : Option String → String → String
  | none, d => d
  | some s, d => if s = "" then d else s

/-- JS truthiness of a possibly-undefined string. -/
def jsTruthy : Option String → Bool
  | none => false
  | some s => s ≠ ""

/-- Runtime shape of the `IpInfo` record built by `fetchIpInfo`.
The TS interface declares every field `string`, but at runtime a field may
be `undefined` when the normalization copies an absent payload attribute,
so each field is `Option String`. -/
structure IpInfoJS where
  ip : Option String
  city : Option String
  region : Option String
  country : Option String
  org : Option String
deriving DecidableEq, Repr

/-- JSON payload of provider A (db-ip `/v2/free/self`): the attributes the
code reads, each possibly absent. -/
structure AJson where
  ipAddress : Option String := none
  city : Option String := none
  regionName : Option String := none
  countryName : Option String := none
deriving DecidableEq, Repr

/-- JSON payload of provider B (ipapi.co `/json/`). -/
structure BJson where
  ip : Option String := none
  city : Option String := none
  region : Option String := none
  country_name : Option String := none
  org : Option String := none
  asn : Option String := none
deriving DecidableEq, Repr

/-- JSON payload of provider C (ipify). -/
structure CJson where
  ip : Option String := none
deriving DecidableEq, Repr

/-- An HTTP response as the cascade sees it: the `ok` flag and the result
of `response.json()` (which may reject on a parse failure). -/
structure HttpResponse (J : Type) where
  ok : Bool
  json : Except Unit J

/-- Provider A normalization (`fetchIpInfo`, primary branch):
`ip: data.ipAddress || '未知'`, descriptive fields default to `''`,
`org` is the fixed placeholder. -/
def normalizeA (data : AJson) : IpInfoJS :=
  { ip := some (jsOrD data.ipAddress "未知")
    city := some (jsOrD data.city "")
    region := some (jsOrD data.regionName "")
    country := some (jsOrD data.countryName "")
    org := some "Unknown Provider" }

/-- Provider B normalization (first fallback branch): fields are copied
with no defaults; `org: data.org || data.asn`. -/
def normalizeB (data : BJson) : IpInfoJS :=
  { ip := data.ip
    city := data.city
    region := data.region
    country := data.country_name
    org := jsOr data.org data.asn }

/-- Provider C normalization (last resort): only `ip` from the payload,
all descriptive fields the literal empty string. -/
def normalizeC (data : CJson) : IpInfoJS :=
  { ip := data.ip
    city := some ""
    region := some ""
    country := some ""
    org := some "" }

/-- One attempt against provider A: a rejected fetch, a non-`ok` response
(`throw new Error('Network response was not ok')`), or a failed
`json()` all end in the enclosing `catch`. -/
def attemptA (r : Except Unit (HttpResponse AJson)) : Except Unit IpInfoJS :=
  match r with
  | .error _ => .error ()
  | .ok resp =>
    if !resp.ok then .error ()
    else
      match resp.json with
      | .error _ => .error ()
      | .ok data => .ok (normalizeA data)

/-- One attempt against provider B: `if (!fallback.ok) throw`, then parse
and normalize. -/
def attemptB (r : Except Unit (HttpResponse BJson)) : Except Unit IpInfoJS :=
  match r with
  | .error _ => .error ()
  | .ok resp =>
    if !resp.ok then .error ()
    else
      match resp.json with
      | .error _ => .error ()
      | .ok data => .ok (normalizeB data)

/-- One attempt against provider C: the code never checks `ipOnly.ok`, it
goes straight to `json()`. -/
def attemptC (r : Except Unit (HttpResponse CJson)) : Except Unit IpInfoJS :=
  match r with
  | .error _ => .error ()
  | .ok resp =>
    match resp.json with
    | .error _ => .error ()
    | .ok data => .ok (normalizeC data)

/-- `fetchIpInfo`: the nested try/catch cascade A → B → C, throwing the
terminal error when all three attempts fail. -/
def fetchIpInfo (ra : Except Unit (HttpResponse AJson))
    (rb : Except Unit (HttpResponse BJson))
    (rc : Except Unit (HttpResponse CJson)) : Except String IpInfoJS :=
  match attemptA ra with
  | .ok v => .ok v
  | .error _ =>
    match attemptB rb with
    | .ok v => .ok v
    | .error _ =>
      match attemptC rc with
      | .ok v => .ok v
      | .error _ => .error "无法获取网络信息"

/-- How the underlying `fetch` would settle, absent any abort: resolve at
millisecond `t` with a response, reject at millisecond `t` (network
error), or never settle. -/
inductive FetchBehavior (α : Type) where
  | resolves (t : Nat) (resp : α)
  | rejects (t : Nat)
  | hangs
deriving DecidableEq

/-- Failure conditions of `fetchWithTimeout`: the abort fired by the
timer, or the underlying fetch rejecting on its own. -/
inductive FetchError where
  | aborted
  | network
deriving DecidableEq

/-- Observable record of one `fetchWithTimeout` call: its outcome, whether
the `clearTimeout(id)` statement was executed, the time at which the call
settled, and the timeout bound it used. -/
structure FetchRun (α : Type) where
  outcome : Except FetchError α
  timerCleared : Bool
  settleTime : Nat
  timeoutUsed : Nat

/-- `fetchWithTimeout`: destructures `timeout = 5000` from the options,
schedules `controller.abort()` at `timeout`, awaits `fetch`, then runs
`clearTimeout(id)` and returns the raw response. When the awaited fetch
rejects — a network error, or the abort racing ahead of a late or absent
settlement — the rejection propagates out of the function before the
`clearTimeout(id)` statement, so on those paths `timerCleared` is false. -/
def fetchWithTimeout {α : Type} (timeoutOpt : Option Nat)
    (b : FetchBehavior α) : FetchRun α :=
  let timeout := timeoutOpt.getD 5000
  match b with
  | .resolves t resp =>
    if t < timeout then
      { outcome := .ok resp, timerCleared := true,
        settleTime := t, timeoutUsed := timeout }
    else
      { outcome := .error .aborted, timerCleared := false,
        settleTime := timeout, timeoutUsed := timeout }
  | .rejects t =>
    if t < timeout then
      { outcome := .error .network, timerCleared := false,
        settleTime := t, timeoutUsed := timeout }
    else
      { outcome := .error .aborted, timerCleared := false,
        settleTime := timeout, timeoutUsed := timeout }
  | .hangs =>
    { outcome := .error .aborted, timerCleared := false,
      settleTime := timeout, timeoutUsed := timeout }

/-- Whether the timeout callback is still pending when the call settles:
it was neither cancelled by `clearTimeout` nor already fired (it fires at
`timeoutUsed`). -/
def timerPendingAfter {α : Type} (r : FetchRun α) : Bool :=
  !r.timerCleared && decide (r.settleTime < r.timeoutUsed)

/-- `GpsCoordinates` from `types.ts`; numbers modelled as rationals. -/
structure GpsCoordinates where
  latitude : ℚ
  longitude : ℚ
  accuracy : ℚ
  timestamp : ℚ
deriving DecidableEq, Repr

/-- `LocationStatus` from `types.ts`. -/
inductive LocationStatus where
  | IDLE
  | LOADING
  | SUCCESS
  | ERROR
  | DENIED
deriving DecidableEq, Repr

/-- `AddressInfo` from `types.ts` (`poiName` is optional). -/
structure AddressInfo where
  formattedAddress : String
  poiName : Option String
deriving DecidableEq, Repr

/-- The component's state in `App.tsx`: the five `useState` cells, the
`lastResolvedCoords` ref and the `isMounted` ref. -/
structure AppState where
  ipData : Option IpInfoJS
  gpsData : Option GpsCoordinates
  addressData : Option AddressInfo
  status : LocationStatus
  errorMsg : String
  lastResolvedCoords : Option (ℚ × ℚ)
  isMounted : Bool
deriving DecidableEq, Repr

/-- The state after the initial `useState` calls, with the component
mounted. -/
def initialAppState : AppState :=
  { ipData := none, gpsData := none, addressData := none,
    status := .IDLE, errorMsg := "", lastResolvedCoords := none,
    isMounted := true }

/-- The synchronous body of `loadLocationData` up to initiating the
asynchronous work: the liveness guard, the resets, and — when the
geolocation capability is unavailable — the early error return. -/
def loadLocationDataSync (geoAvailable : Bool) (s : AppState) : AppState :=
  if !s.isMounted then s
  else
    let s1 := { s with status := .LOADING, errorMsg := "",
                       addressData := none, lastResolvedCoords := none }
    if !geoAvailable then
      { s1 with status := .ERROR, errorMsg := "您的浏览器不支持定位功能" }
    else s1

/-- Completion handler of `fetchIpInfo().then(...)` in `loadLocationData`:
`if (isMounted.current) setIpData(data)`. The `.catch` branch only logs. -/
def ipSuccessHandler (data : IpInfoJS) (s : AppState) : AppState :=
  if s.isMounted then { s with ipData := some data } else s

/-- `getCurrentPosition` success callback: liveness guard, then
`setGpsData` with the fix. -/
def geoSuccessHandler (pos : GpsCoordinates) (s : AppState) : AppState :=
  if !s.isMounted then s
  else { s with gpsData := some pos }

/-- `getCurrentPosition` error callback: liveness guard, `setStatus(DENIED)`,
and the `switch (error.code)` mapping onto the localized message, the
`default` case passing `error.message` through. -/
def geoErrorHandler (code : Nat) (message : String) (s : AppState) : AppState :=
  if !s.isMounted then s
  else
    let msg :=
      match code with
      | 1 => "请允许浏览器获取您的位置权限"
      | 2 => "GPS 信号弱，无法获取位置"
      | 3 => "定位请求超时"
      | _ => message
    { s with status := .DENIED, errorMsg := msg }

/-- The synchronous head of `resolveAddressWithGemini`: it records the
coordinates in `lastResolvedCoords` before any awaited work. -/
def resolveStart (lat lng : ℚ) (s : AppState) : AppState :=
  { s with lastResolvedCoords := some (lat, lng) }

/-- Outcome of the awaited grounding call: the model responded with
`response.text` (possibly `undefined`), or the call threw. -/
inductive GroundingOutcome where
  | ok (text : Option String)
  | err
deriving DecidableEq, Repr

/-- Completion of `resolveAddressWithGemini` after the awaited grounding
call: on a response, the liveness guard, then either the trimmed text with
poiName `"Google Maps Data"`, or the soft-fail placeholder; on a thrown
error, the guarded placeholder. Every live path sets status `SUCCESS`. -/
def resolveComplete (o : GroundingOutcome) (s : AppState) : AppState :=
  match o with
  | .ok text =>
    if !s.isMounted then s
    else if jsTruthy text then
      { s with
        addressData := some { formattedAddress := (text.getD "").trim,
                              poiName := some "Google Maps Data" },
        status := .SUCCESS }
    else
      { s with status := .SUCCESS,
               addressData := some { formattedAddress := "无法解析详细地址",
                                     poiName := some "" } }
  | .err =>
    if s.isMounted then
      { s with status := .SUCCESS,
               addressData := some { formattedAddress := "地址解析超时或失败",
                                     poiName := some "" } }
    else s

/-- The `useEffect` on `gpsData`: when a fix is present and the guard does
not hold exactly these coordinates, invoke `resolveAddressWithGemini`
(whose synchronous head is `resolveStart`). Returns the new state and
whether the grounding collaborator was invoked. The optional-chained
comparison `lastResolvedCoords.current?.lat === gpsData.latitude && ...`
skips only when the guard holds a pair equal on both fields. -/
def gpsDataEffect (s : AppState) : AppState × Bool :=
  match s.gpsData with
  | none => (s, false)
  | some g =>
    if s.lastResolvedCoords = some (g.latitude, g.longitude) then (s, false)
    else (resolveStart g.latitude g.longitude s, true)

/-- Delivery of one GPS fix to the orchestrator: `setGpsData` followed by
the effect on `gpsData`. -/
def deliverFix (s : AppState) (g : GpsCoordinates) : AppState × Bool :=
  gpsDataEffect { s with gpsData := some g }

/-- Delivery of a sequence of fixes; returns the final state and the list
of coordinate pairs for which the grounding collaborator was invoked, in
order. -/
def deliverFixes (s : AppState) : List GpsCoordinates → AppState × List (ℚ × ℚ)
  | [] => (s, [])
  | g :: gs =>
    let (s1, invoked) := deliverFix s g
    let (s2, rest) := deliverFixes s1 gs
    (s2, (if invoked then [(g.latitude, g.longitude)] else []) ++ rest)

/-- An asynchronous completion that can reach the component after the
initial load: IP resolution success, geolocation success or failure, or
the grounding call settling. -/
inductive AsyncEvent where
  | ipSuccess (data : IpInfoJS)
  | geoSuccess (pos : GpsCoordinates)
  | geoError (code : Nat) (message : String)
  | grounding (o : GroundingOutcome)

/-- Dispatch of an asynchronous completion to its handler in `App.tsx`. -/
def handleAsync : AsyncEvent → AppState → AppState
  | .ipSuccess data, s => ipSuccessHandler data s
  | .geoSuccess pos, s => geoSuccessHandler pos s
  | .geoError code message, s => geoErrorHandler code message s
  | .grounding o, s => resolveComplete o s

/-- C1: `fetchIpInfo` returns the `IpInfo` normalized from the first
provider that succeeds in the fixed order A (db-ip), B (ipapi.co),
C (ipify); when only C succeeds, only the `ip` field is taken from the
payload and all descriptive fields are empty strings; and it throws the
single terminal error "无法获取网络信息" if and only if all three
providers fail. -/
theorem fetchIpInfo_cascade (ra : Except Unit (HttpResponse AJson))
    (rb : Except Unit (HttpResponse BJson))
    (rc : Except Unit (HttpResponse CJson)) :
    (∀ resp data, ra = .ok resp → resp.ok = true → resp.json = .ok data →
      fetchIpInfo ra rb rc = .ok (normalizeA data)) ∧
    (attemptA ra = .error () →
      ∀ resp data, rb = .ok resp → resp.ok = true → resp.json = .ok data →
        fetchIpInfo ra rb rc = .ok (normalizeB data)) ∧
    (attemptA ra = .error () → attemptB rb = .error () →
      ∀ resp data, rc = .ok resp → resp.json = .ok data →
        fetchIpInfo ra rb rc =
          .ok { ip := data.ip, city := some "", region := some "",
                country := some "", org := some "" }) ∧
    (fetchIpInfo ra rb rc = .error "无法获取网络信息" ↔
      attemptA ra = .error () ∧ attemptB rb = .error () ∧
        attemptC rc = .error ()) := by
  refine ⟨?_, ?_, ?_, ?_⟩
  · intro resp data hra hok hjson
    simp [fetchIpInfo, attemptA, hra, hok, hjson]
  · intro hA resp data hrb hok hjson
    simp [fetchIpInfo, hA, attemptB, hrb, hok, hjson]
  · intro hA hB resp data hrc hjson
    simp [fetchIpInfo, hA, hB, attemptC, hrc, hjson, normalizeC]
  · constructor
    · intro h
      cases hA : attemptA ra with
      | ok v => simp [fetchIpInfo, hA] at h
      | error e =>
        cases hB : attemptB rb with
        | ok v => simp [fetchIpInfo, hA, hB] at h
        | error e2 =>
          cases hC : attemptC rc with
          | ok v => simp [fetchIpInfo, hA, hB, hC] at h
          | error e3 => exact ⟨rfl, rfl, rfl⟩
    · rintro ⟨hA, hB, hC⟩
      simp [fetchIpInfo, hA, hB, hC]

/-- Witness for C1: with providers A and B failing and C succeeding with
payload ip `1.2.3.4`, the cascade returns the IP-only record; and with all
three failing it throws the terminal error. -/
theorem fetchIpInfo_cascade_witness :
    fetchIpInfo (.error ()) (.error ())
        (.ok { ok := true, json := .ok { ip := some "1.2.3.4" } }) =
      .ok { ip := some "1.2.3.4", city := some "", region := some "",
            country := some "", org := some "" } ∧
    fetchIpInfo (.error ()) (.error ()) (.error ()) =
      .error "无法获取网络信息" :=
  ⟨(fetchIpInfo_cascade (.error ()) (.error ())
      (.ok { ok := true, json := .ok { ip := some "1.2.3.4" } })).2.2.1
        rfl rfl _ _ rfl rfl,
   (fetchIpInfo_cascade (.error ()) (.error ()) (.error ())).2.2.2.mpr
     ⟨rfl, rfl, rfl⟩⟩

/-- Helper: every branch of `fetchWithTimeout` uses the destructured
timeout, `options.timeout` defaulting to 5000. -/
theorem fetchWithTimeout_timeoutUsed {α : Type} (o : Option Nat)
    (b : FetchBehavior α) :
    (fetchWithTimeout o b).timeoutUsed = o.getD 5000 := by
  cases b <;> simp [fetchWithTimeout] <;> split <;> rfl

/-- C6: with the `timeout` option omitted the bound is 5000 ms; when no
response arrives within the bound (the fetch hangs, or would settle only
at or after the bound) the request is aborted and the call rejects; a
response arriving within the bound is returned raw. -/
theorem fetchWithTimeout_contract {α : Type} (timeoutOpt : Option Nat)
    (b : FetchBehavior α) :
    (timeoutOpt = none → (fetchWithTimeout timeoutOpt b).timeoutUsed = 5000) ∧
    (∀ t resp, b = .resolves t resp →
      t < (fetchWithTimeout timeoutOpt b).timeoutUsed →
      (fetchWithTimeout timeoutOpt b).outcome = .ok resp) ∧
    (∀ t resp, b = .resolves t resp →
      (fetchWithTimeout timeoutOpt b).timeoutUsed ≤ t →
      (fetchWithTimeout timeoutOpt b).outcome = .error .aborted) ∧
    (∀ t, b = .rejects t →
      (fetchWithTimeout timeoutOpt b).timeoutUsed ≤ t →
      (fetchWithTimeout timeoutOpt b).outcome = .error .aborted) ∧
    (b = .hangs →
      (fetchWithTimeout timeoutOpt b).outcome = .error .aborted) := by
  have hT := fetchWithTimeout_timeoutUsed timeoutOpt b
  refine ⟨?_, ?_, ?_, ?_, ?_⟩
  · intro h; rw [hT, h]; rfl
  · intro t resp hb hlt
    rw [hT] at hlt
    subst hb
    simp [fetchWithTimeout, hlt]
  · intro t resp hb hle
    rw [hT] at hle
    subst hb
    simp [fetchWithTimeout, Nat.not_lt.mpr hle]
  · intro t hb hle
    rw [hT] at hle
    subst hb
    simp [fetchWithTimeout, Nat.not_lt.mpr hle]
  · intro hb
    subst hb
    simp [fetchWithTimeout]

/-- Witness for C6: with the option omitted and the fetch hanging, the
bound is 5000 and the call rejects with the abort condition. -/
theorem fetchWithTimeout_contract_witness :
    (fetchWithTimeout none (.hangs : FetchBehavior Unit)).timeoutUsed = 5000 ∧
    (fetchWithTimeout none (.hangs : FetchBehavior Unit)).outcome =
      .error .aborted :=
  ⟨(fetchWithTimeout_contract none (.hangs : FetchBehavior Unit)).1 rfl,
   (fetchWithTimeout_contract none (.hangs : FetchBehavior Unit)).2.2.2.2 rfl⟩

/-- C2 (code bug): when the awaited fetch rejects before the timer fires
(here: a network error at t = 0 against the default 5000 ms bound), the
rejection propagates before the `clearTimeout(id)` statement, so the
timer is not cleared and its callback is still pending when the call
settles — contradicting the claim that the timer is cleared on both the
success and the failure path. -/
theorem fetchWithTimeout_timer_leak :
    (fetchWithTimeout none (.rejects 0 : FetchBehavior Unit)).timerCleared
        = false ∧
    timerPendingAfter (fetchWithTimeout none (.rejects 0 : FetchBehavior Unit))
        = true := by
  constructor <;> rfl

/-- C7 counterexample: with provider A failing and provider B succeeding
with a payload that omits `city`, the returned record's `city` field is
`undefined`, not the empty string. -/
theorem normalizeB_undefined_field :
    (fetchIpInfo (.error ())
        (.ok ⟨true, .ok ⟨some "9.9.9.9", none, none, none, none, none⟩⟩)
        (.error ())).toOption.map IpInfoJS.city = some none := rfl

/-- C7 amended: provider A's normalization always yields defined string
fields — descriptive fields default to the empty string when absent, `ip`
defaults to "未知", `org` is the fixed placeholder — and provider C's
descriptive fields are empty strings; but provider B's normalization
copies attributes with no defaults, so an absent attribute (for `org`:
both `org` and `asn` absent) yields an undefined field. -/
theorem normalize_field_defaults (a : AJson) (b : BJson) (c : CJson) :
    ((normalizeA a).ip.isSome ∧ (normalizeA a).city.isSome ∧
     (normalizeA a).region.isSome ∧ (normalizeA a).country.isSome ∧
     (normalizeA a).org = some "Unknown Provider") ∧
    (a.city = none → (normalizeA a).city = some "") ∧
    (a.regionName = none → (normalizeA a).region = some "") ∧
    (a.countryName = none → (normalizeA a).country = some "") ∧
    (a.ipAddress = none → (normalizeA a).ip = some "未知") ∧
    (b.city = none → (normalizeB b).city = none) ∧
    (b.org = none → b.asn = none → (normalizeB b).org = none) ∧
    ((normalizeC c).city = some "" ∧ (normalizeC c).region = some "" ∧
     (normalizeC c).country = some "" ∧ (normalizeC c).org = some "") := by
  refine ⟨⟨?_, ?_, ?_, ?_, rfl⟩, ?_, ?_, ?_, ?_, ?_, ?_, rfl, rfl, rfl, rfl⟩
  · simp [normalizeA]
  · simp [normalizeA]
  · simp [normalizeA]
  · simp [normalizeA]
  · intro h; simp [normalizeA, jsOrD, h]
  · intro h; simp [normalizeA, jsOrD, h]
  · intro h; simp [normalizeA, jsOrD, h]
  · intro h; simp [normalizeA, jsOrD, h]
  · intro h; simp [normalizeB, h]
  · intro h1 h2; simp [normalizeB, jsOr, h1, h2]

/-- Witness for the amended C7: on all-absent payloads, provider A yields
the empty-string and "未知" defaults while provider B yields undefined
`city` and `org`. -/
theorem normalize_field_defaults_witness :
    (normalizeA { ipAddress := none, city := none, regionName := none,
                  countryName := none }).city = some "" ∧
    (normalizeA { ipAddress := none, city := none, regionName := none,
                  countryName := none }).ip = some "未知" ∧
    (normalizeB { ip := none, city := none, region := none,
                  country_name := none, org := none, asn := none }).city
      = none ∧
    (normalizeB { ip := none, city := none, region := none,
                  country_name := none, org := none, asn := none }).org
      = none := by
  have h := normalize_field_defaults
    { ipAddress := none, city := none, regionName := none,
      countryName := none }
    { ip := none, city := none, region := none,
      country_name := none, org := none, asn := none }
    { ip := none }
  exact ⟨h.2.1 rfl, h.2.2.2.2.1 rfl, h.2.2.2.2.2.1 rfl,
         h.2.2.2.2.2.2.1 rfl rfl⟩

/-- C3 counterexample: the guard memoizes only the last attempted pair, so
in the fix sequence (1,2), (3,4), (1,2) the grounding collaborator is
invoked three times — the pair (1,2), though a single distinct pair, is
resolved twice, refuting "exactly once per distinct pair". -/
theorem gpsData_effect_redundant_invocation :
    (deliverFixes initialAppState
        [⟨1, 2, 5, 0⟩, ⟨3, 4, 5, 1⟩, ⟨1, 2, 5, 2⟩]).2 =
      [(1, 2), (3, 4), (1, 2)] := by
  decide

/-- C3 amended: the grounding collaborator is invoked exactly when the
incoming fix differs from the memoized last-attempted pair — so identical
repeated coordinates delivered twice in a row produce exactly one
invocation, but a pair may be re-attempted after a different pair
intervenes. -/
theorem gpsData_effect_dedup (s : AppState) (g : GpsCoordinates)
    (h : s.lastResolvedCoords ≠ some (g.latitude, g.longitude)) :
    (deliverFixes s [g, g]).2 = [(g.latitude, g.longitude)] ∧
    ∀ s2 g2, (deliverFix s2 g2).2 =
      !decide (s2.lastResolvedCoords = some (g2.latitude, g2.longitude)) := by
  constructor
  · simp [deliverFixes, deliverFix, gpsDataEffect, resolveStart, h]
  · intro s2 g2
    by_cases h2 : s2.lastResolvedCoords = some (g2.latitude, g2.longitude)
    · simp [deliverFix, gpsDataEffect, h2]
    · simp [deliverFix, gpsDataEffect, h2]

/-- Witness for the amended C3: the spec's coordinates (31.2304, 121.4737)
delivered twice from the fresh state invoke the collaborator once. -/
theorem gpsData_effect_dedup_witness :
    (deliverFixes initialAppState
        [⟨312304/10000, 1214737/10000, 5, 0⟩,
         ⟨312304/10000, 1214737/10000, 5, 0⟩]).2 =
      [(312304/10000, 1214737/10000)] :=
  (gpsData_effect_dedup initialAppState
    ⟨312304/10000, 1214737/10000, 5, 0⟩ (by decide)).1

/-- C4: while the component is mounted, every completion of the grounding
call — real text, undefined or empty text, or a thrown error — ends with
status `SUCCESS` and a non-null `addressData` holding either the trimmed
real address or one of the two placeholder strings. -/
theorem resolveComplete_always_success (s : AppState) (o : GroundingOutcome)
    (h : s.isMounted = true) :
    (resolveComplete o s).status = .SUCCESS ∧
    ∃ a, (resolveComplete o s).addressData = some a ∧
      (a.formattedAddress = "无法解析详细地址" ∨
       a.formattedAddress = "地址解析超时或失败" ∨
       ∃ t, o = .ok (some t) ∧ t ≠ "" ∧ a.formattedAddress = t.trim) := by
  cases o with
  | ok text =>
    cases text with
    | none => simp [resolveComplete, h, jsTruthy]
    | some t =>
      by_cases ht : t = ""
      · subst ht
        simp [resolveComplete, h, jsTruthy]
      · refine ⟨by simp [resolveComplete, h, jsTruthy, ht], ?_⟩
        exact ⟨{ formattedAddress := t.trim,
                 poiName := some "Google Maps Data" },
               by simp [resolveComplete, h, jsTruthy, ht],
               Or.inr (Or.inr ⟨t, rfl, ht, rfl⟩)⟩
  | err => simp [resolveComplete, h]

/-- Witness for C4: a thrown grounding error on the mounted fresh state
ends with status `SUCCESS` and the failure placeholder address. -/
theorem resolveComplete_always_success_witness :
    (resolveComplete .err initialAppState).status = LocationStatus.SUCCESS ∧
    (resolveComplete .err initialAppState).addressData ≠ none := by
  have h := resolveComplete_always_success initialAppState .err rfl
  refine ⟨h.1, ?_⟩
  rcases h.2 with ⟨a, ha, _⟩
  simp [ha]

/-- C5: while the component is mounted, a geolocation failure sets status
`DENIED` and maps the error code: 1 to the permission message, 2 to the
weak-signal message, 3 to the timeout message, anything else to the
platform-provided message verbatim. -/
theorem geoErrorHandler_mapping (s : AppState) (code : Nat) (message : String)
    (h : s.isMounted = true) :
    (geoErrorHandler code message s).status = .DENIED ∧
    (geoErrorHandler code message s).errorMsg =
      (if code = 1 then "请允许浏览器获取您的位置权限"
       else if code = 2 then "GPS 信号弱，无法获取位置"
       else if code = 3 then "定位请求超时"
       else message) := by
  refine ⟨by simp [geoErrorHandler, h], ?_⟩
  match code with
  | 0 => simp [geoErrorHandler, h]
  | 1 => simp [geoErrorHandler, h]
  | 2 => simp [geoErrorHandler, h]
  | 3 => simp [geoErrorHandler, h]
  | (n + 4) =>
    have h1 : n + 4 ≠ 1 := by omega
    have h2 : n + 4 ≠ 2 := by omega
    have h3 : n + 4 ≠ 3 := by omega
    simp [geoErrorHandler, h, h1, h2, h3]

/-- Witness for C5: code 1 on the mounted fresh state yields `DENIED` and
the permission message; code 7 passes the platform message through. -/
theorem geoErrorHandler_mapping_witness :
    (geoErrorHandler 1 "platform text" initialAppState).errorMsg =
        "请允许浏览器获取您的位置权限" ∧
    (geoErrorHandler 7 "platform text" initialAppState).errorMsg =
        "platform text" ∧
    (geoErrorHandler 1 "platform text" initialAppState).status =
        LocationStatus.DENIED := by
  have ha := geoErrorHandler_mapping initialAppState 1 "platform text" rfl
  have hb := geoErrorHandler_mapping initialAppState 7 "platform text" rfl
  refine ⟨?_, ?_, ha.1⟩
  · rw [ha.2]; rfl
  · rw [hb.2]; rfl

/-- C8: once the liveness flag is cleared, no asynchronous completion —
IP success, geolocation success or failure, or the grounding call
settling — changes the component state at all. -/
theorem handleAsync_unmounted_noop (e : AsyncEvent) (s : AppState)
    (h : s.isMounted = false) : handleAsync e s = s := by
  cases e with
  | ipSuccess data => simp [handleAsync, ipSuccessHandler, h]
  | geoSuccess pos => simp [handleAsync, geoSuccessHandler, h]
  | geoError code message => simp [handleAsync, geoErrorHandler, h]
  | grounding o =>
    cases o with
    | ok text => simp [handleAsync, resolveComplete, h]
    | err => simp [handleAsync, resolveComplete, h]

/-- Witness for C8: a late grounding failure arriving after teardown
leaves the unmounted state untouched. -/
theorem handleAsync_unmounted_noop_witness :
    handleAsync (.grounding .err) { initialAppState with isMounted := false }
      = { initialAppState with isMounted := false } :=
  handleAsync_unmounted_noop (.grounding .err)
    { initialAppState with isMounted := false } rfl

/-- Helper: completing the grounding call never touches the coordinate
guard. -/
theorem resolveComplete_guard (o : GroundingOutcome) (s : AppState) :
    (resolveComplete o s).lastResolvedCoords = s.lastResolvedCoords := by
  cases o with
  | ok text =>
    by_cases hm : s.isMounted
    · by_cases ht : jsTruthy text
      · simp [resolveComplete, hm, ht]
      · simp [resolveComplete, hm, ht]
    · simp [resolveComplete, hm]
  | err =>
    by_cases hm : s.isMounted
    · simp [resolveComplete, hm]
    · simp [resolveComplete, hm]

/-- C9: delivering a fix records its (lat, lng) pair in the guard at
invocation time, before the grounding call completes; so whatever the
grounding outcome — including failure or empty text — the same pair
delivered again is not re-attempted. -/
theorem guard_records_attempt (s : AppState) (g : GpsCoordinates)
    (o : GroundingOutcome) :
    ((deliverFix s g).1).lastResolvedCoords =
        some (g.latitude, g.longitude) ∧
    (deliverFix (resolveComplete o (deliverFix s g).1) g).2 = false := by
  have h1 : ((deliverFix s g).1).lastResolvedCoords =
      some (g.latitude, g.longitude) := by
    by_cases hg : s.lastResolvedCoords = some (g.latitude, g.longitude)
    · simp [deliverFix, gpsDataEffect, hg]
    · simp [deliverFix, gpsDataEffect, hg, resolveStart]
  refine ⟨h1, ?_⟩
  have h3 : (resolveComplete o (deliverFix s g).1).lastResolvedCoords =
      some (g.latitude, g.longitude) :=
    (resolveComplete_guard o (deliverFix s g).1).trans h1
  generalize hG : resolveComplete o (deliverFix s g).1 = s2 at h3
  simp [deliverFix, gpsDataEffect, h3]

/-- C10: the synchronous part of `loadLocationData` (with the component
mounted and geolocation available) clears `addressData`, the error
message and the coordinate guard, while `ipData` and `gpsData` persist
unchanged from the previous cycle. -/
theorem loadLocationData_reset_frame (s : AppState)
    (h : s.isMounted = true) :
    (loadLocationDataSync true s).ipData = s.ipData ∧
    (loadLocationDataSync true s).gpsData = s.gpsData ∧
    (loadLocationDataSync true s).addressData = none ∧
    (loadLocationDataSync true s).errorMsg = "" ∧
    (loadLocationDataSync true s).lastResolvedCoords = none := by
  simp [loadLocationDataSync, h]

/-- Witness for C10: refreshing from a state that already holds an IP
record and a GPS fix keeps both while clearing the address, the message
and the guard. -/
theorem loadLocationData_reset_frame_witness :
    (loadLocationDataSync true
        { initialAppState with gpsData := some ⟨1, 2, 3, 4⟩,
                               addressData := some ⟨"somewhere", none⟩ }).gpsData
      = some ⟨1, 2, 3, 4⟩ ∧
    (loadLocationDataSync true
        { initialAppState with gpsData := some ⟨1, 2, 3, 4⟩,
                               addressData := some ⟨"somewhere", none⟩ }).addressData
      = none := by
  have h := loadLocationData_reset_frame
    { initialAppState with gpsData := some ⟨1, 2, 3, 4⟩,
                           addressData := some ⟨"somewhere", none⟩ } rfl
  exact ⟨h.2.1, h.2.2.1⟩

end GpsIp
